import Mathlib

/-!
# Verification of `flooder.c` (badvpn flooder)

Shallow embedding of the core of `src/flooder/flooder.c`: the pull-based
packet source `flood_source_handler_recv`, the connection readiness state
machine (`server_handler_ready`, `server_handler_error`, the side-channel
handlers and `terminate`), and the command-line parser `parse_arguments`.

C state that the handlers read and write (the file-scope globals
`server_ready`, `my_id`, `flood_blocking`, `flood_next`, and the liveness
of the pipeline objects and server connection) is carried in an explicit
`SysState` record.  `ASSERT` failures and undefined behaviour (freeing an
object that is not initialized) are modelled as `none`.  Machine integers
are `Nat`/`Int` with explicit truncation where the C types force it
(`peerid_t` is a 16-bit unsigned integer).
-/

/-- Protocol constants used by the flooder.  `scproto.h` is not part of the
sources under verification.  Modelled from the spec: the wire payload is a
one-byte message-type tag (the outbound-message constant `SCID_OUTMSG`),
then a little-endian 16-bit target peer identifier, then a zero-filled body
of the protocol's fixed maximum message length `SC_MAX_MSGLEN`. -/
structure ScProto where
  SCID_OUTMSG : Nat
  SC_MAX_MSGLEN : Nat

/-- The mutable file-scope state of flooder.c that the core handlers touch.
`*_alive` fields record which objects are currently initialized (used to
model construction/teardown order and to detect double frees).
`terminated` records that `BReactor_Quit` was called, after which
`BReactor_Exec` returns and no further callbacks are dispatched;
`exit_code` is the value passed to `BReactor_Quit`. -/
structure SysState where
  server_ready : Bool
  my_id : Nat
  flood_blocking : Bool
  flood_next : Int
  source_alive : Bool
  encoder_alive : Bool
  buffer_alive : Bool
  server_alive : Bool
  terminated : Bool
  exit_code : Option Int
deriving DecidableEq, Repr

/-- State right after `main` reaches the event loop: `server_ready = 0`
(flooder.c line 293), the pipeline does not exist yet, the server
connection object is initialized, and the zero-initialized globals
`flood_blocking` and `flood_next` are 0. -/
def initState : SysState :=
  { server_ready := false
    my_id := 0
    flood_blocking := false
    flood_next := 0
    source_alive := false
    encoder_alive := false
    buffer_alive := false
    server_alive := true
    terminated := false
    exit_code := none }

/-- `htol16`: little-endian byte encoding of a 16-bit value (low byte
first).  The argument is first truncated to 16 bits as the conversion to
`uint16_t` does. -/
def htol16 (x : Nat) : List Nat :=
  [x % 256, x / 256 % 256]

/-- `memset(buf + start, v, len)` on a byte buffer modelled as a list;
writes outside the buffer are dropped by `List.set` (the C code never
performs them for the buffer sizes used). -/
def memset (buf : List Nat) (start len v : Nat) : List Nat :=
  match len with
  | 0 => buf
  | n + 1 => memset (buf.set start v) (start + 1) n v

/-- Write a list of bytes into `buf` starting at offset `i` (models a
multi-byte store such as the `uint16_t` store of `msg->clientid`). -/
def writeBytes (buf : List Nat) (i : Nat) : List Nat → List Nat
  | [] => buf
  | b :: bs => writeBytes (buf.set i b) (i + 1) bs

/-- Result of one call to `flood_source_handler_recv`:
`produced = some (peer, len)` models returning 1 with the selected peer
identifier `peer` and `*data_len = len`; `produced = none` models
returning 0 ("no data now").  `buf` is the output buffer after the call
and `state` the global state after the call. -/
structure RecvResult where
  produced : Option (Nat × Nat)
  buf : List Nat
  state : SysState
deriving DecidableEq, Repr

/-- `flood_source_handler_recv` (flooder.c lines 690-719).  `floods` is
`options.floods[0 .. options.num_floods)`, `buf` the caller-supplied
output buffer (of size `SC_MAX_ENC`, at least the produced length).
`none` models an `ASSERT` failure. -/
def flood_source_handler_recv (P : ScProto) (floods : List Nat)
    (s : SysState) (buf : List Nat) : Option RecvResult :=
  if ¬ s.server_ready then none
  else if s.flood_blocking then none
  else if 0 < floods.length ∧
      ¬ (0 ≤ s.flood_next ∧ s.flood_next < (floods.length : Int)) then none
  else if floods.length = 0 then
    some ⟨none, buf, { s with flood_blocking := true }⟩
  else
    let peer_id := floods.getD s.flood_next.toNat 0
    let s' := { s with flood_next := (s.flood_next + 1) % (floods.length : Int) }
    let buf1 := buf.set 0 P.SCID_OUTMSG
    let buf2 := writeBytes buf1 1 (htol16 peer_id)
    let buf3 := memset buf2 3 P.SC_MAX_MSGLEN 0
    some ⟨some (peer_id, 1 + 2 + P.SC_MAX_MSGLEN), buf3, s'⟩

/-- Iterate `flood_source_handler_recv` `n` times, requiring every call to
pass its assertions and produce a packet; returns the list of selected
peer identifiers in order and the final state.  The buffer contents do not
feed back into selection, so a fixed fresh buffer is supplied per call as
the pipeline does. -/
def produceN (P : ScProto) (floods : List Nat) (s : SysState) :
    Nat → Option (List Nat × SysState)
  | 0 => some ([], s)
  | n + 1 =>
    match flood_source_handler_recv P floods s
        (List.replicate (1 + 2 + P.SC_MAX_MSGLEN) 0) with
    | some ⟨some (peer, _), _, s'⟩ =>
      match produceN P floods s' n with
      | some (sel, s'') => some (peer :: sel, s'')
      | none => none
    | _ => none

/-- A ready, unblocked state with cursor 0 (as after `server_handler_ready`
succeeds at process start). -/
def readyState : SysState :=
  { initState with
      server_ready := true
      source_alive := true
      encoder_alive := true
      buffer_alive := true }

/-- A concrete instantiation of the protocol constants, for witnesses. -/
def P0 : ScProto := ⟨77, 4⟩

/-- Pipeline and connection objects freed during teardown, named for the
C objects `flood_buffer`, `flood_encoder`, `flood_source` and `server`. -/
inductive Comp where
  | buffer
  | encoder
  | source
  | server
deriving DecidableEq, Repr

/-- `terminate` (flooder.c lines 340-387): if the server was ready, frees
the single-packet buffer, then the encoder, then the source; then frees
the server connection; then quits the reactor with exit code 1
(`BReactor_Quit(&ss, 1)`).  Freeing an object that is not initialized is
undefined behaviour, modelled as `none`.  Returns the new state and the
objects freed, in order. -/
def terminate (s : SysState) : Option (SysState × List Comp) :=
  if s.server_ready then
    if s.buffer_alive ∧ s.encoder_alive ∧ s.source_alive ∧ s.server_alive then
      some ({ s with buffer_alive := false, encoder_alive := false,
                     source_alive := false, server_alive := false,
                     terminated := true, exit_code := some 1 },
            [Comp.buffer, Comp.encoder, Comp.source, Comp.server])
    else none
  else
    if s.server_alive then
      some ({ s with server_alive := false, terminated := true,
                     exit_code := some 1 },
            [Comp.server])
    else none

/-- `server_handler_ready` (flooder.c lines 630-665): asserts the server
is not already ready, records `my_id`, constructs the source and the
encoder, then the single-packet buffer; `buffer_ok` says whether
`SinglePacketBuffer_Init` succeeds (it acquires external resources).  On
success it sets `flood_blocking = 0` and `server_ready = 1`; on failure
it frees the encoder and the source and calls `terminate`. -/
def server_handler_ready (pid : Nat) (buffer_ok : Bool) (s : SysState) :
    Option (SysState × List Comp) :=
  if s.server_ready then none
  else
    let s1 := { s with my_id := pid, source_alive := true,
                       encoder_alive := true }
    if buffer_ok then
      some ({ s1 with buffer_alive := true, flood_blocking := false,
                      server_ready := true }, [])
    else
      match terminate { s1 with encoder_alive := false,
                                source_alive := false } with
      | some (t, fs) => some (t, [Comp.encoder, Comp.source] ++ fs)
      | none => none

/-- One reactor-dispatched event in the flooder's event loop. -/
inductive Ev where
  | ready (pid : Nat) (buffer_ok : Bool)
  | error
  | signal
  | newclient (peer : Nat)
  | endclient (peer : Nat)
  | message (peer : Nat) (len : Nat)
  | recv (buf : List Nat)
deriving DecidableEq, Repr

/-- Dispatch of one event by the reactor.  After `BReactor_Quit`
(`terminated = true`) `BReactor_Exec` has returned and no callback runs
again, so every event maps to `none`.  `server_handler_error` (lines
623-628) and `signal_handler` (lines 616-621) just log and call
`terminate`; `server_handler_newclient`, `server_handler_endclient` and
`server_handler_message` (lines 667-688) assert `server_ready` (and the
message length bounds) and only log.  Returns the new state and the
objects freed during the event. -/
def step (P : ScProto) (floods : List Nat) (s : SysState) :
    Ev → Option (SysState × List Comp)
  | .ready pid ok =>
    if s.terminated then none else server_handler_ready pid ok s
  | .error => if s.terminated then none else terminate s
  | .signal => if s.terminated then none else terminate s
  | .newclient _ =>
    if s.terminated then none
    else if s.server_ready then some (s, []) else none
  | .endclient _ =>
    if s.terminated then none
    else if s.server_ready then some (s, []) else none
  | .message _ len =>
    if s.terminated then none
    else if s.server_ready ∧ len ≤ P.SC_MAX_MSGLEN then some (s, [])
    else none
  | .recv buf =>
    if s.terminated then none
    else (flood_source_handler_recv P floods s buf).map
      (fun r => (r.state, []))

/-- `LOGGER_STDOUT` (flooder.c line 53). -/
def LOGGER_STDOUT : Nat := 1

/-- `LOGGER_SYSLOG` (flooder.c line 54). -/
def LOGGER_SYSLOG : Nat := 2

/-- The command-line `options` structure (flooder.c lines 60-77).  The
per-channel loglevel array (whose size `BLOG_NUM_CHANNELS` is external)
is modelled as the list of `(channel, level)` assignments performed, in
order; entries never assigned keep the initial -1. -/
structure Options where
  help : Bool
  version : Bool
  logger : Nat
  logger_syslog_facility : String
  logger_syslog_ident : String
  loglevel : Int
  loglevels : List (Int × Int)
  ssl : Bool
  nssdb : Option String
  client_cert_name : Option String
  server_name : Option String
  server_addr : Option String
  floods : List Nat
deriving DecidableEq, Repr

/-- Functions and constants the parser calls whose definitions live
outside flooder.c: `parse_loglevel` and `BLogGlobal_GetChannelByName`
(a negative result means an invalid name), `atoi`, and `MAX_FLOODS`
from flooder.h.  Modelled from the spec: `MAX_FLOODS` is the fixed
capacity of the TargetList ("too many target identifiers" beyond it). -/
structure ExtEnv where
  parse_loglevel : String → Int
  getChannelByName : String → Int
  atoi : String → Int
  MAX_FLOODS : Nat

/-- The initial assignments of `parse_arguments` (flooder.c lines
425-441); `prog` is `argv[0]`. -/
def defaultOptions (prog : String) : Options :=
  { help := false
    version := false
    logger := LOGGER_STDOUT
    logger_syslog_facility := "daemon"
    logger_syslog_ident := prog
    loglevel := -1
    loglevels := []
    ssl := false
    nssdb := none
    client_cert_name := none
    server_name := none
    server_addr := none
    floods := [] }

/-- The per-option assignments of the scanning loop (flooder.c lines
446-566), one helper per `--option`, so that each loop branch is the
corresponding C assignment. -/
def o_help (o : Options) : Options := { o with help := true }

def o_version (o : Options) : Options := { o with version := true }

def o_logger (v : Nat) (o : Options) : Options := { o with logger := v }

def o_syslog_facility (a : String) (o : Options) : Options :=
  { o with logger_syslog_facility := a }

def o_syslog_ident (a : String) (o : Options) : Options :=
  { o with logger_syslog_ident := a }

def o_loglevel (v : Int) (o : Options) : Options := { o with loglevel := v }

def o_channel_loglevel (ch lv : Int) (o : Options) : Options :=
  { o with loglevels := o.loglevels ++ [(ch, lv)] }

def o_ssl (o : Options) : Options := { o with ssl := true }

def o_nssdb (a : String) (o : Options) : Options := { o with nssdb := some a }

def o_client_cert_name (a : String) (o : Options) : Options :=
  { o with client_cert_name := some a }

def o_server_name (a : String) (o : Options) : Options :=
  { o with server_name := some a }

def o_server_addr (a : String) (o : Options) : Options :=
  { o with server_addr := some a }

/-- `options.floods[options.num_floods++] = atoi(...)` (flooder.c line
563); a `peerid_t` is a 16-bit unsigned integer, so the value is stored
modulo `2^16`. -/
def o_flood_id (E : ExtEnv) (a : String) (o : Options) : Options :=
  { o with floods := o.floods ++ [((E.atoi a).emod 65536).toNat] }

/-- The option-scanning loop of `parse_arguments` (flooder.c lines
443-571) over the arguments after `argv[0]`; `none` models `return 0`
(an option missing its argument value, a bad value, too many
`--flood-id`, or an unknown option).  A `peerid_t` is a 16-bit unsigned
integer, so a `--flood-id` value is stored modulo `2^16`. -/
def parse_loop (E : ExtEnv) : List String → Options → Option Options
  | [], o => some o
  | arg :: rest, o =>
    if arg = "--help" then parse_loop E rest (o_help o)
    else if arg = "--version" then parse_loop E rest (o_version o)
    else if arg = "--logger" then
      match rest with
      | [] => none
      | a2 :: rest2 =>
        if a2 = "stdout" then parse_loop E rest2 (o_logger LOGGER_STDOUT o)
        else if a2 = "syslog" then
          parse_loop E rest2 (o_logger LOGGER_SYSLOG o)
        else none
    else if arg = "--syslog-facility" then
      match rest with
      | [] => none
      | a2 :: rest2 => parse_loop E rest2 (o_syslog_facility a2 o)
    else if arg = "--syslog-ident" then
      match rest with
      | [] => none
      | a2 :: rest2 => parse_loop E rest2 (o_syslog_ident a2 o)
    else if arg = "--loglevel" then
      match rest with
      | [] => none
      | a2 :: rest2 =>
        if E.parse_loglevel a2 < 0 then none
        else parse_loop E rest2 (o_loglevel (E.parse_loglevel a2) o)
    else if arg = "--channel-loglevel" then
      match rest with
      | [] => none
      | a2 :: rest2 =>
        match rest2 with
        | [] => none
        | a3 :: rest3 =>
          if E.getChannelByName a2 < 0 then none
          else if E.parse_loglevel a3 < 0 then none
          else parse_loop E rest3
            (o_channel_loglevel (E.getChannelByName a2) (E.parse_loglevel a3) o)
    else if arg = "--ssl" then parse_loop E rest (o_ssl o)
    else if arg = "--nssdb" then
      match rest with
      | [] => none
      | a2 :: rest2 => parse_loop E rest2 (o_nssdb a2 o)
    else if arg = "--client-cert-name" then
      match rest with
      | [] => none
      | a2 :: rest2 => parse_loop E rest2 (o_client_cert_name a2 o)
    else if arg = "--server-name" then
      match rest with
      | [] => none
      | a2 :: rest2 => parse_loop E rest2 (o_server_name a2 o)
    else if arg = "--server-addr" then
      match rest with
      | [] => none
      | a2 :: rest2 => parse_loop E rest2 (o_server_addr a2 o)
    else if arg = "--flood-id" then
      match rest with
      | [] => none
      | a2 :: rest2 =>
        if o.floods.length = E.MAX_FLOODS then none
        else parse_loop E rest2 (o_flood_id E a2 o)
    else none

/-- The validation tail of `parse_arguments` (flooder.c lines 573-592):
skipped entirely when `--help` or `--version` was seen; otherwise
enforces `--ssl <=> --nssdb`, `--ssl <=> --client-cert-name` and the
presence of `--server-addr`. -/
def parse_validate (o : Options) : Option Options :=
  if o.help ∨ o.version then some o
  else if o.ssl != o.nssdb.isSome then none
  else if o.ssl != o.client_cert_name.isSome then none
  else if o.server_addr.isNone then none
  else some o

/-- `parse_arguments` (flooder.c lines 419-593); `argv` includes the
program name and `argc <= 0` fails. -/
def parse_arguments (E : ExtEnv) (argv : List String) : Option Options :=
  match argv with
  | [] => none
  | prog :: args =>
    match parse_loop E args (defaultOptions prog) with
    | none => none
    | some o => parse_validate o

/-- The early part of `main` (flooder.c lines 156-181): exit code 1 when
`argc <= 0` or parsing fails (before any pipeline exists), exit code 0
on `--help` or `--version`; `none` means execution continues towards
the event loop. -/
def main_startup (E : ExtEnv) (argv : List String) : Option Int :=
  match argv with
  | [] => some 1
  | _ :: _ =>
    match parse_arguments E argv with
    | none => some 1
    | some o =>
      if o.help then some 0
      else if o.version then some 0
      else none

/-- The command-line fragment passing `ds` as successive `--flood-id`
values. -/
def floodArgs : List String → List String
  | [] => []
  | d :: ds => "--flood-id" :: d :: floodArgs ds

theorem length_memset (start len v : Nat) :
    ∀ buf : List Nat, (memset buf start len v).length = buf.length := by
  induction len generalizing start with
  | zero => intro buf; rfl
  | succ n ih =>
    intro buf
    simp only [memset]
    rw [ih]
    exact List.length_set buf start v

theorem getElem_memset (len : Nat) :
    ∀ (buf : List Nat) (start v i : Nat) (h : i < (memset buf start len v).length),
      (memset buf start len v)[i] =
        if start ≤ i ∧ i < start + len then v else buf.getD i 0 := by
  induction len with
  | zero =>
    intro buf start v i h
    simp only [memset] at h ⊢
    have : ¬ (start ≤ i ∧ i < start + 0) := by omega
    rw [if_neg this, List.getD_eq_getElem]
  | succ n ih =>
    intro buf start v i h
    simp only [memset] at h ⊢
    rw [ih (buf.set start v) (start + 1) v i h]
    have hlen : i < buf.length := by
      have := h
      rw [length_memset, List.length_set] at this
      exact this
    by_cases h1 : start + 1 ≤ i ∧ i < start + 1 + n
    · rw [if_pos h1, if_pos (by omega)]
    · rw [if_neg h1]
      by_cases h2 : i = start
      · subst h2
        rw [if_pos (by omega)]
        rw [List.getD_eq_getElem _ _ (by simpa using hlen)]
        simp
      · rw [if_neg (by omega)]
        rw [List.getD_eq_getElem _ _ (by simpa using hlen),
          List.getD_eq_getElem _ _ hlen]
        simp [List.getElem_set, h2, Ne.symm h2]

theorem recv_step (P : ScProto) (floods : List Nat) (s : SysState)
    (buf : List Nat) (c : Nat) (hr : s.server_ready = true)
    (hb : s.flood_blocking = false) (hc : s.flood_next = (c : Int))
    (hlt : c < floods.length) :
    flood_source_handler_recv P floods s buf =
      some ⟨some (floods.getD c 0, 1 + 2 + P.SC_MAX_MSGLEN),
        memset (writeBytes (buf.set 0 P.SCID_OUTMSG) 1
          (htol16 (floods.getD c 0))) 3 P.SC_MAX_MSGLEN 0,
        { s with flood_next := (((c + 1) % floods.length : Nat) : Int) }⟩ := by
  have hN : 0 < floods.length := by omega
  unfold flood_source_handler_recv
  rw [if_neg (by rw [hr]; simp)]
  rw [if_neg (by rw [hb]; simp)]
  rw [if_neg (by
    rw [hc]
    push_neg
    intro _
    exact ⟨by exact_mod_cast Nat.zero_le c, by exact_mod_cast hlt⟩)]
  rw [if_neg (by omega)]
  have h1 : s.flood_next.toNat = c := by rw [hc]; exact Int.toNat_natCast c
  have h2 : (s.flood_next + 1) % (floods.length : Int) =
      (((c + 1) % floods.length : Nat) : Int) := by
    rw [hc]
    push_cast
    rfl
  simp only [h1, h2]

theorem produceN_spec (P : ScProto) (floods : List Nat) (n : Nat) :
    ∀ (s : SysState) (c : Nat), s.server_ready = true →
      s.flood_blocking = false → s.flood_next = (c : Int) →
      c < floods.length →
      produceN P floods s n =
        some ((List.range n).map
            (fun i => floods.getD ((c + i) % floods.length) 0),
          { s with flood_next := (((c + n) % floods.length : Nat) : Int) }) := by
  induction n with
  | zero =>
    intro s c hr hb hc hlt
    simp only [produceN, List.range_zero, List.map_nil]
    rw [Nat.add_zero, Nat.mod_eq_of_lt hlt, ← hc]
  | succ n ih =>
    intro s c hr hb hc hlt
    have hN : 0 < floods.length := by omega
    simp only [produceN]
    rw [recv_step P floods s _ c hr hb hc hlt]
    dsimp only
    rw [ih { s with flood_next := (((c + 1) % floods.length : Nat) : Int) }
      ((c + 1) % floods.length) hr hb rfl (Nat.mod_lt _ hN)]
    have hlist : (List.range (n + 1)).map
        (fun i => floods.getD ((c + i) % floods.length) 0) =
        floods.getD c 0 :: (List.range n).map
          (fun i => floods.getD (((c + 1) % floods.length + i) % floods.length) 0) := by
      rw [List.range_succ_eq_map, List.map_cons, List.map_map]
      congr 1
      · rw [Nat.add_zero, Nat.mod_eq_of_lt hlt]
      · apply List.map_congr_left
        intro i _
        simp only [Function.comp]
        rw [Nat.mod_add_mod]
        congr 2
        omega
    rw [hlist]
    have hcur : ((c + 1) % floods.length + n) % floods.length =
        (c + (n + 1)) % floods.length := by
      rw [Nat.mod_add_mod]
      congr 1
      omega
    rw [hcur]

theorem range_map_cyclic (l : List Nat) (c : Nat) (hc : c < l.length) :
    (List.range l.length).map (fun i => l.getD ((c + i) % l.length) 0) =
      l.drop c ++ l.take c := by
  apply List.ext_getElem
  · simp
    omega
  · intro i h1 h2
    simp only [List.getElem_map, List.getElem_range]
    have hiN : i < l.length := by simpa using h1
    by_cases hcase : i < l.length - c
    · rw [List.getElem_append_left (by simpa using hcase)]
      rw [List.getElem_drop]
      rw [List.getD_eq_getElem _ _ (by
        rw [Nat.mod_eq_of_lt (by omega)]
        omega)]
      congr 1
      rw [Nat.mod_eq_of_lt (by omega)]
    · rw [List.getElem_append_right (by simp; omega)]
      rw [List.getElem_take]
      have hmod : (c + i) % l.length = c + i - l.length := by
        rw [Nat.mod_eq_sub_mod (by omega), Nat.mod_eq_of_lt (by omega)]
      rw [List.getD_eq_getElem _ _ (by rw [hmod]; omega)]
      congr 1
      rw [hmod]
      simp
      omega

/-- C1: for every non-empty TargetList and starting cursor `c`, `N`
consecutive successful productions select exactly the elements of the list
read cyclically from offset `c` and the cursor returns to `c`; in
particular for `[7, 3, 3, 9]` starting at 0, five productions select
`7, 3, 3, 9, 7`. -/
theorem C1_round_robin (P : ScProto) (floods : List Nat) (s : SysState)
    (c : Nat) (hr : s.server_ready = true) (hb : s.flood_blocking = false)
    (hc : s.flood_next = (c : Int)) (hlt : c < floods.length) :
    (∃ s', produceN P floods s floods.length =
        some (floods.drop c ++ floods.take c, s') ∧
      s'.flood_next = (c : Int)) ∧
    ∃ s1, produceN P [7, 3, 3, 9] readyState 5 = some ([7, 3, 3, 9, 7], s1) := by
  constructor
  · have spec := produceN_spec P floods floods.length s c hr hb hc hlt
    rw [range_map_cyclic floods c hlt] at spec
    refine ⟨_, spec, ?_⟩
    show (((c + floods.length) % floods.length : Nat) : Int) = (c : Int)
    rw [Nat.add_mod_right, Nat.mod_eq_of_lt hlt]
  · refine ⟨{ readyState with flood_next := (((0 + 5) % 4 : Nat) : Int) }, ?_⟩
    rw [produceN_spec P [7, 3, 3, 9] 5 readyState 0 rfl rfl rfl (by decide)]
    decide

theorem C1_round_robin_witness :
    (∃ s', produceN P0 [5, 6] { readyState with flood_next := 1 } 2 =
        some ([5, 6].drop 1 ++ [5, 6].take 1, s') ∧
      s'.flood_next = ((1 : Nat) : Int)) ∧
    ∃ s1, produceN P0 [7, 3, 3, 9] readyState 5 = some ([7, 3, 3, 9, 7], s1) :=
  C1_round_robin P0 [5, 6] { readyState with flood_next := 1 } 1
    rfl rfl rfl (by decide)

/-- C3: with an empty TargetList, every call to the source handler (under
the caller contract: ready and not already blocked) returns the "no data"
answer, sets `flood_blocking`, writes nothing into the buffer, and leaves
every other field of the state unchanged. -/
theorem C3_empty_target_declines (P : ScProto) (s : SysState)
    (buf : List Nat) (hr : s.server_ready = true)
    (hb : s.flood_blocking = false) :
    flood_source_handler_recv P [] s buf =
      some ⟨none, buf, { s with flood_blocking := true }⟩ := by
  simp [flood_source_handler_recv, hr, hb]

theorem C3_empty_target_declines_witness :
    flood_source_handler_recv P0 [] readyState [0, 0, 0] =
      some ⟨none, [0, 0, 0], { readyState with flood_blocking := true }⟩ :=
  C3_empty_target_declines P0 readyState [0, 0, 0] rfl rfl

/-- C4: under the documented preconditions (ready, not blocked, cursor in
range when the list is non-empty) the handler never hits an assertion
failure, and when the TargetList is non-empty it produces a packet and
leaves the blocked flag false. -/
theorem C4_production_total (P : ScProto) (floods : List Nat) (s : SysState)
    (buf : List Nat) (hr : s.server_ready = true)
    (hb : s.flood_blocking = false)
    (hcur : 0 < floods.length →
      0 ≤ s.flood_next ∧ s.flood_next < (floods.length : Int)) :
    ∃ r : RecvResult, flood_source_handler_recv P floods s buf = some r ∧
      (0 < floods.length →
        (∃ p len, r.produced = some (p, len)) ∧
        r.state.flood_blocking = false) := by
  by_cases hN : 0 < floods.length
  · have hcur' := hcur hN
    have hc : s.flood_next = (s.flood_next.toNat : Int) :=
      (Int.toNat_of_nonneg hcur'.1).symm
    have hlt : s.flood_next.toNat < floods.length := by
      have h2 := hcur'.2
      omega
    refine ⟨_, recv_step P floods s buf s.flood_next.toNat hr hb hc hlt, ?_⟩
    intro _
    exact ⟨⟨_, _, rfl⟩, hb⟩
  · have h0 : floods.length = 0 := by omega
    refine ⟨⟨none, buf, { s with flood_blocking := true }⟩, ?_, ?_⟩
    · simp [flood_source_handler_recv, hr, hb, h0]
    · intro h
      omega

theorem C4_production_total_witness :
    ∃ r : RecvResult,
      flood_source_handler_recv P0 [9] readyState [0, 0, 0, 0, 0, 0, 0] =
        some r ∧
      (0 < [9].length →
        (∃ p len, r.produced = some (p, len)) ∧
        r.state.flood_blocking = false) :=
  C4_production_total P0 [9] readyState [0, 0, 0, 0, 0, 0, 0]
    rfl rfl (by decide)

/-- C5: whenever the TargetList is non-empty the cursor lies in
`[0, num_floods)` before (hypothesis) and after (conclusion) a production,
and each successful production advances it by exactly one modulo the list
length. -/
theorem C5_cursor_range (P : ScProto) (floods : List Nat) (s : SysState)
    (buf : List Nat) (c : Nat) (hr : s.server_ready = true)
    (hb : s.flood_blocking = false) (hc : s.flood_next = (c : Int))
    (hlt : c < floods.length) :
    ∃ r : RecvResult, flood_source_handler_recv P floods s buf = some r ∧
      r.state.flood_next = (((c + 1) % floods.length : Nat) : Int) ∧
      0 ≤ r.state.flood_next ∧
      r.state.flood_next < (floods.length : Int) := by
  refine ⟨_, recv_step P floods s buf c hr hb hc hlt, rfl, ?_, ?_⟩
  · exact Int.natCast_nonneg _
  · show ((((c + 1) % floods.length : Nat) : Int)) < (floods.length : Int)
    exact_mod_cast Nat.mod_lt _ (by omega)

theorem C5_cursor_range_witness :
    ∃ r : RecvResult,
      flood_source_handler_recv P0 [4, 8] { readyState with flood_next := 1 }
        [0, 0, 0, 0, 0, 0, 0] = some r ∧
      r.state.flood_next = (((1 + 1) % [4, 8].length : Nat) : Int) ∧
      0 ≤ r.state.flood_next ∧
      r.state.flood_next < ([4, 8].length : Int) :=
  C5_cursor_range P0 [4, 8] { readyState with flood_next := 1 }
    [0, 0, 0, 0, 0, 0, 0] 1 rfl rfl rfl (by decide)

theorem length_writeBytes (bs : List Nat) :
    ∀ (buf : List Nat) (i : Nat), (writeBytes buf i bs).length = buf.length := by
  induction bs with
  | nil => intro buf i; rfl
  | cons b bs ih =>
    intro buf i
    simp only [writeBytes]
    rw [ih, List.length_set]

theorem take_payload (P : ScProto) (buf : List Nat) (p : Nat)
    (hbuf : 1 + 2 + P.SC_MAX_MSGLEN ≤ buf.length) (hp : p < 65536) :
    (memset (writeBytes (buf.set 0 P.SCID_OUTMSG) 1 (htol16 p))
        3 P.SC_MAX_MSGLEN 0).take (1 + 2 + P.SC_MAX_MSGLEN) =
      P.SCID_OUTMSG :: p % 256 :: p / 256 ::
        List.replicate P.SC_MAX_MSGLEN 0 := by
  have hdiv : p / 256 % 256 = p / 256 := by
    have : p / 256 < 256 := by omega
    exact Nat.mod_eq_of_lt this
  have hmlen : (memset (writeBytes (buf.set 0 P.SCID_OUTMSG) 1 (htol16 p))
      3 P.SC_MAX_MSGLEN 0).length = buf.length := by
    rw [length_memset, length_writeBytes, List.length_set]
  apply List.ext_getElem
  · rw [List.length_take, hmlen]
    simp
    omega
  · intro i h1 h2
    rw [List.getElem_take]
    rw [getElem_memset]
    have hiL : i < 1 + 2 + P.SC_MAX_MSGLEN := by
      rw [List.length_take, hmlen] at h1
      omega
    have hibuf : i < buf.length := by omega
    by_cases hi3 : 3 ≤ i
    · rw [if_pos ⟨hi3, by omega⟩]
      obtain ⟨j, rfl⟩ : ∃ j, i = j + 3 := ⟨i - 3, by omega⟩
      rw [List.getElem_cons_succ, List.getElem_cons_succ,
        List.getElem_cons_succ, List.getElem_replicate]
    · rw [if_neg (by omega)]
      simp only [writeBytes, htol16]
      interval_cases i
      · rw [List.getD_eq_getElem _ _ (by
          simp only [List.length_set]
          exact hibuf)]
        simp [List.getElem_set]
      · rw [List.getD_eq_getElem _ _ (by
          simp only [List.length_set]
          exact hibuf)]
        simp [List.getElem_set]
      · rw [List.getD_eq_getElem _ _ (by
          simp only [List.length_set]
          exact hibuf)]
        simp [List.getElem_set, hdiv]

/-- C2: every successful production writes a payload consisting of the
`SCID_OUTMSG` tag byte, the selected peer identifier in little-endian
16-bit encoding, and exactly `SC_MAX_MSGLEN` zero bytes, and reports the
length `sizeof(sc_header) + sizeof(sc_client_outmsg) + SC_MAX_MSGLEN`
= `1 + 2 + SC_MAX_MSGLEN`; every reported byte is written (the first
`data_len` bytes of the output buffer do not depend on its prior
contents). -/
theorem C2_payload_layout (P : ScProto) (floods : List Nat) (s : SysState)
    (buf : List Nat) (c : Nat) (hr : s.server_ready = true)
    (hb : s.flood_blocking = false) (hc : s.flood_next = (c : Int))
    (hlt : c < floods.length)
    (hbuf : 1 + 2 + P.SC_MAX_MSGLEN ≤ buf.length)
    (hid : ∀ x ∈ floods, x < 65536) :
    ∃ r : RecvResult, flood_source_handler_recv P floods s buf = some r ∧
      ∃ p len, r.produced = some (p, len) ∧
        len = 1 + 2 + P.SC_MAX_MSGLEN ∧
        r.buf.take len =
          P.SCID_OUTMSG :: p % 256 :: p / 256 ::
            List.replicate P.SC_MAX_MSGLEN 0 ∧
        r.buf.length = buf.length := by
  have hp : floods.getD c 0 < 65536 := by
    rw [List.getD_eq_getElem _ _ hlt]
    exact hid _ (List.getElem_mem _)
  refine ⟨_, recv_step P floods s buf c hr hb hc hlt, floods.getD c 0, _,
    rfl, rfl, ?_, ?_⟩
  · exact take_payload P buf (floods.getD c 0) hbuf hp
  · show (memset (writeBytes (buf.set 0 P.SCID_OUTMSG) 1
        (htol16 (floods.getD c 0))) 3 P.SC_MAX_MSGLEN 0).length = buf.length
    rw [length_memset, length_writeBytes, List.length_set]

theorem C2_payload_layout_witness :
    ∃ r : RecvResult,
      flood_source_handler_recv P0 [300] readyState
        [9, 9, 9, 9, 9, 9, 9] = some r ∧
      ∃ p len, r.produced = some (p, len) ∧
        len = 1 + 2 + P0.SC_MAX_MSGLEN ∧
        r.buf.take len =
          P0.SCID_OUTMSG :: p % 256 :: p / 256 ::
            List.replicate P0.SC_MAX_MSGLEN 0 ∧
        r.buf.length = [9, 9, 9, 9, 9, 9, 9].length :=
  C2_payload_layout P0 [300] readyState [9, 9, 9, 9, 9, 9, 9] 0
    rfl rfl rfl (by decide) (by decide) (by decide)

theorem recv_preserves (P : ScProto) (floods : List Nat) (s : SysState)
    (buf : List Nat) (r : RecvResult)
    (h : flood_source_handler_recv P floods s buf = some r) :
    r.state.source_alive = s.source_alive ∧
    r.state.encoder_alive = s.encoder_alive ∧
    r.state.buffer_alive = s.buffer_alive ∧
    r.state.server_ready = s.server_ready ∧
    r.state.server_alive = s.server_alive ∧
    r.state.terminated = s.terminated ∧
    r.state.exit_code = s.exit_code ∧
    r.state.my_id = s.my_id := by
  unfold flood_source_handler_recv at h
  split at h
  · exact absurd h (by simp)
  · split at h
    · exact absurd h (by simp)
    · split at h
      · exact absurd h (by simp)
      · split at h
        · obtain rfl : (⟨none, buf, { s with flood_blocking := true }⟩ :
            RecvResult) = r := Option.some.inj h
          exact ⟨rfl, rfl, rfl, rfl, rfl, rfl, rfl, rfl⟩
        · obtain rfl := Option.some.inj h
          exact ⟨rfl, rfl, rfl, rfl, rfl, rfl, rfl, rfl⟩

/-- C6: the session starts not ready with no pipeline objects; a second
ready callback is a contract violation (`ASSERT(!server_ready)`); on the
successful ready transition the source, encoder and buffer are
constructed and `flood_blocking` is reset to 0; and no other event ever
constructs a pipeline object. -/
theorem C6_ready_once (P : ScProto) (floods : List Nat) :
    (initState.server_ready = false ∧ initState.source_alive = false ∧
      initState.encoder_alive = false ∧ initState.buffer_alive = false) ∧
    (∀ (s : SysState) (pid : Nat) (ok : Bool), s.server_ready = true →
      step P floods s (.ready pid ok) = none) ∧
    (∀ (s : SysState) (pid : Nat), s.server_ready = false →
      s.terminated = false →
      step P floods s (.ready pid true) =
        some ({ s with my_id := pid, source_alive := true,
                       encoder_alive := true, buffer_alive := true,
                       flood_blocking := false, server_ready := true },
          [])) ∧
    (∀ (s s' : SysState) (fs : List Comp) (e : Ev),
      (∀ pid ok, e ≠ .ready pid ok) →
      step P floods s e = some (s', fs) →
      (s'.source_alive = true → s.source_alive = true) ∧
      (s'.encoder_alive = true → s.encoder_alive = true) ∧
      (s'.buffer_alive = true → s.buffer_alive = true)) := by
  refine ⟨⟨rfl, rfl, rfl, rfl⟩, ?_, ?_, ?_⟩
  · intro s pid ok hr
    by_cases ht : s.terminated <;>
      simp [step, server_handler_ready, hr, ht]
  · intro s pid hr ht
    simp [step, server_handler_ready, hr, ht]
  · intro s s' fs e hne hstep
    cases e with
    | ready pid ok => exact absurd rfl (hne pid ok)
    | error =>
      simp only [step] at hstep
      split at hstep
      · exact absurd hstep (by simp)
      · unfold terminate at hstep
        split at hstep <;> split at hstep <;>
          first
            | (have h1 : _ = s' := (Prod.ext_iff.mp (Option.some.inj hstep)).1
               subst h1
               exact ⟨by simp, by simp, by simp⟩)
            | exact absurd hstep (by simp)
    | signal =>
      simp only [step] at hstep
      split at hstep
      · exact absurd hstep (by simp)
      · unfold terminate at hstep
        split at hstep <;> split at hstep <;>
          first
            | (have h1 : _ = s' := (Prod.ext_iff.mp (Option.some.inj hstep)).1
               subst h1
               exact ⟨by simp, by simp, by simp⟩)
            | exact absurd hstep (by simp)
    | newclient peer =>
      simp only [step] at hstep
      split at hstep
      · exact absurd hstep (by simp)
      · split at hstep
        · have h1 : s = s' := (Prod.ext_iff.mp (Option.some.inj hstep)).1
          subst h1
          exact ⟨fun h => h, fun h => h, fun h => h⟩
        · exact absurd hstep (by simp)
    | endclient peer =>
      simp only [step] at hstep
      split at hstep
      · exact absurd hstep (by simp)
      · split at hstep
        · have h1 : s = s' := (Prod.ext_iff.mp (Option.some.inj hstep)).1
          subst h1
          exact ⟨fun h => h, fun h => h, fun h => h⟩
        · exact absurd hstep (by simp)
    | message peer len =>
      simp only [step] at hstep
      split at hstep
      · exact absurd hstep (by simp)
      · split at hstep
        · have h1 : s = s' := (Prod.ext_iff.mp (Option.some.inj hstep)).1
          subst h1
          exact ⟨fun h => h, fun h => h, fun h => h⟩
        · exact absurd hstep (by simp)
    | recv buf =>
      simp only [step] at hstep
      split at hstep
      · exact absurd hstep (by simp)
      · rw [Option.map_eq_some'] at hstep
        obtain ⟨r, hr, hrs⟩ := hstep
        have hst : r.state = s' := (Prod.ext_iff.mp hrs).1
        subst hst
        obtain ⟨h1, h2, h3, _⟩ := recv_preserves P floods s buf r hr
        exact ⟨fun h => h1 ▸ h, fun h => h2 ▸ h, fun h => h3 ▸ h⟩

theorem C6_ready_once_witness :
    step P0 [] readyState (.ready 4 true) = none ∧
    step P0 [] initState (.ready 4 true) =
      some ({ initState with my_id := 4, source_alive := true,
                             encoder_alive := true, buffer_alive := true,
                             flood_blocking := false, server_ready := true },
        []) :=
  ⟨(C6_ready_once P0 []).2.1 readyState 4 true rfl,
   (C6_ready_once P0 []).2.2.1 initState 4 rfl rfl⟩

/-- C7: a transport error callback or a termination signal while the
session is ready frees the buffer, then the encoder, then the source
(each exactly once), then the server connection, and quits the reactor
with exit code 1; afterwards no event — in particular no pull on the
packet source — is dispatched again. -/
theorem C7_error_teardown (P : ScProto) (floods : List Nat) (s : SysState)
    (hr : s.server_ready = true) (ht : s.terminated = false)
    (hba : s.buffer_alive = true) (hea : s.encoder_alive = true)
    (hsa : s.source_alive = true) (hva : s.server_alive = true) :
    ∀ e, e = Ev.error ∨ e = Ev.signal →
    ∃ s', step P floods s e =
        some (s', [Comp.buffer, Comp.encoder, Comp.source, Comp.server]) ∧
      [Comp.buffer, Comp.encoder, Comp.source, Comp.server].Nodup ∧
      s'.buffer_alive = false ∧ s'.encoder_alive = false ∧
      s'.source_alive = false ∧ s'.server_alive = false ∧
      s'.terminated = true ∧ s'.exit_code = some 1 ∧
      ∀ e2, step P floods s' e2 = none := by
  intro e he
  have hterm : terminate s =
      some ({ s with buffer_alive := false, encoder_alive := false,
                     source_alive := false, server_alive := false,
                     terminated := true, exit_code := some 1 },
        [Comp.buffer, Comp.encoder, Comp.source, Comp.server]) := by
    simp [terminate, hr, hba, hea, hsa, hva]
  have hstep : step P floods s e =
      some ({ s with buffer_alive := false, encoder_alive := false,
                     source_alive := false, server_alive := false,
                     terminated := true, exit_code := some 1 },
        [Comp.buffer, Comp.encoder, Comp.source, Comp.server]) := by
    rcases he with rfl | rfl <;> simp [step, ht, hterm]
  refine ⟨_, hstep, by decide, rfl, rfl, rfl, rfl, rfl, rfl, ?_⟩
  intro e2
  cases e2 <;> simp [step]

theorem C7_error_teardown_witness :
    ∃ s', step P0 [] readyState Ev.error =
        some (s', [Comp.buffer, Comp.encoder, Comp.source, Comp.server]) ∧
      [Comp.buffer, Comp.encoder, Comp.source, Comp.server].Nodup ∧
      s'.buffer_alive = false ∧ s'.encoder_alive = false ∧
      s'.source_alive = false ∧ s'.server_alive = false ∧
      s'.terminated = true ∧ s'.exit_code = some 1 ∧
      ∀ e2, step P0 [] s' e2 = none :=
  C7_error_teardown P0 [] readyState rfl rfl rfl rfl rfl rfl
    Ev.error (Or.inl rfl)

/-- C8: the peer-joined, peer-left and inbound-message callbacks are
contract violations while not ready, and while ready (with the message
length within its asserted bound) they change nothing: the state after
the event is exactly the state before, and nothing is freed. -/
theorem C8_side_channel_noop (P : ScProto) (floods : List Nat)
    (s : SysState) (peer len : Nat) :
    (s.server_ready = true → s.terminated = false →
      step P floods s (.newclient peer) = some (s, []) ∧
      step P floods s (.endclient peer) = some (s, []) ∧
      (len ≤ P.SC_MAX_MSGLEN →
        step P floods s (.message peer len) = some (s, []))) ∧
    (s.server_ready = false →
      step P floods s (.newclient peer) = none ∧
      step P floods s (.endclient peer) = none ∧
      step P floods s (.message peer len) = none) := by
  constructor
  · intro hr ht
    refine ⟨?_, ?_, ?_⟩
    · simp [step, hr, ht]
    · simp [step, hr, ht]
    · intro hlen
      simp [step, hr, ht, hlen]
  · intro hr
    by_cases ht : s.terminated <;>
      refine ⟨?_, ?_, ?_⟩ <;> simp [step, hr, ht]

theorem C8_side_channel_noop_witness :
    step P0 [] readyState (.newclient 3) = some (readyState, []) ∧
    step P0 [] initState (.newclient 3) = none :=
  ⟨((C8_side_channel_noop P0 [] readyState 3 0).1 rfl rfl).1,
   ((C8_side_channel_noop P0 [] initState 3 0).2 rfl).1⟩

/-- C10: if `SinglePacketBuffer_Init` fails during the ready callback,
the just-constructed encoder and source are freed there, `server_ready`
stays 0, and the immediately following `terminate` skips the
pipeline-freeing block (it only frees the server connection), so each
freed object is freed exactly once and the buffer is never freed. -/
theorem C10_buffer_fail_cleanup (P : ScProto) (floods : List Nat)
    (s : SysState) (pid : Nat) (hr : s.server_ready = false)
    (ht : s.terminated = false) (hsa : s.source_alive = false)
    (hea : s.encoder_alive = false) (hba : s.buffer_alive = false)
    (hva : s.server_alive = true) :
    ∃ s', step P floods s (.ready pid false) =
        some (s', [Comp.encoder, Comp.source, Comp.server]) ∧
      [Comp.encoder, Comp.source, Comp.server].Nodup ∧
      Comp.buffer ∉ [Comp.encoder, Comp.source, Comp.server] ∧
      s'.server_ready = false ∧ s'.source_alive = false ∧
      s'.encoder_alive = false ∧ s'.buffer_alive = false ∧
      s'.server_alive = false ∧ s'.terminated = true ∧
      s'.exit_code = some 1 := by
  refine ⟨{ s with my_id := pid, server_alive := false,
                   terminated := true, exit_code := some 1 }, ?_,
    by decide, by decide, hr, hsa, hea, hba, rfl, rfl, rfl⟩
  simp [step, ht, server_handler_ready, hr, terminate, hva]
  exact ⟨hsa, hea⟩

theorem C10_buffer_fail_cleanup_witness :
    ∃ s', step P0 [] initState (.ready 7 false) =
        some (s', [Comp.encoder, Comp.source, Comp.server]) ∧
      [Comp.encoder, Comp.source, Comp.server].Nodup ∧
      Comp.buffer ∉ [Comp.encoder, Comp.source, Comp.server] ∧
      s'.server_ready = false ∧ s'.source_alive = false ∧
      s'.encoder_alive = false ∧ s'.buffer_alive = false ∧
      s'.server_alive = false ∧ s'.terminated = true ∧
      s'.exit_code = some 1 :=
  C10_buffer_fail_cleanup P0 [] initState 7 rfl rfl rfl rfl rfl rfl

def E0 : ExtEnv := ⟨fun _ => -1, fun _ => -1, fun _ => 300, 2⟩

theorem parse_loop_flood_id (E : ExtEnv) (d : String) (rest : List String)
    (o : Options) :
    parse_loop E ("--flood-id" :: d :: rest) o =
      if o.floods.length = E.MAX_FLOODS then none
      else parse_loop E rest (o_flood_id E d o) := by
  cases rest with
  | nil =>
    rw [parse_loop.eq_3]
    rw [if_neg (by decide), if_neg (by decide), if_neg (by decide),
      if_neg (by decide), if_neg (by decide), if_neg (by decide),
      if_neg (by decide), if_neg (by decide), if_neg (by decide),
      if_neg (by decide), if_neg (by decide), if_neg (by decide),
      if_pos (by decide)]
  | cons a3 rest3 =>
    rw [parse_loop.eq_4]
    rw [if_neg (by decide), if_neg (by decide), if_neg (by decide),
      if_neg (by decide), if_neg (by decide), if_neg (by decide),
      if_neg (by decide), if_neg (by decide), if_neg (by decide),
      if_neg (by decide), if_neg (by decide), if_neg (by decide),
      if_pos (by decide)]

theorem parse_loop_server_addr (E : ExtEnv) (a : String) (rest : List String)
    (o : Options) :
    parse_loop E ("--server-addr" :: a :: rest) o =
      parse_loop E rest (o_server_addr a o) := by
  cases rest with
  | nil =>
    rw [parse_loop.eq_3]
    rw [if_neg (by decide), if_neg (by decide), if_neg (by decide),
      if_neg (by decide), if_neg (by decide), if_neg (by decide),
      if_neg (by decide), if_neg (by decide), if_neg (by decide),
      if_neg (by decide), if_neg (by decide), if_pos (by decide)]
  | cons a3 rest3 =>
    rw [parse_loop.eq_4]
    rw [if_neg (by decide), if_neg (by decide), if_neg (by decide),
      if_neg (by decide), if_neg (by decide), if_neg (by decide),
      if_neg (by decide), if_neg (by decide), if_neg (by decide),
      if_neg (by decide), if_neg (by decide), if_pos (by decide)]

theorem parse_loop_floodArgs (E : ExtEnv) (ds : List String) :
    ∀ o : Options, o.floods.length ≤ E.MAX_FLOODS →
      parse_loop E (floodArgs ds) o =
        if o.floods.length + ds.length ≤ E.MAX_FLOODS
        then some { o with floods :=
          o.floods ++ ds.map (fun d => ((E.atoi d).emod 65536).toNat) }
        else none := by
  induction ds with
  | nil =>
    intro o h
    show parse_loop E [] o = _
    rw [if_pos (by simp; omega)]
    rw [parse_loop.eq_1]
    simp
  | cons d ds ih =>
    intro o h
    show parse_loop E ("--flood-id" :: d :: floodArgs ds) o = _
    rw [parse_loop_flood_id]
    by_cases hmax : o.floods.length = E.MAX_FLOODS
    · rw [if_pos hmax, if_neg (by simp; omega)]
    · rw [if_neg hmax]
      rw [ih (o_flood_id E d o) (by simp [o_flood_id]; omega)]
      by_cases hfit : o.floods.length + (d :: ds).length ≤ E.MAX_FLOODS
      · rw [if_pos (by simp [o_flood_id] at hfit ⊢; omega), if_pos hfit]
        simp [o_flood_id]
      · rw [if_neg (by simp [o_flood_id] at hfit ⊢; omega), if_neg hfit]

/-- C9: argument parsing fails — and `main` exits with code 1 before the
event loop — when `--server-addr` is missing or when `--ssl` and
`--nssdb`/`--client-cert-name` are not given together; with `--help` or
`--version` and an otherwise well-formed command line those validations
are skipped and the exit code is 0; `--flood-id` values populate the
TargetList in command-line order, and more than `MAX_FLOODS` of them is
a parse error (exit code 1). -/
theorem C9_parse_validation (E : ExtEnv) (prog a : String)
    (args : List String) (o : Options) (ds : List String) :
    (parse_loop E args (defaultOptions prog) = some o →
      o.help = false → o.version = false →
      ((o.server_addr = none → main_startup E (prog :: args) = some 1) ∧
       ((o.ssl != o.nssdb.isSome) = true →
         main_startup E (prog :: args) = some 1) ∧
       ((o.ssl != o.nssdb.isSome) = false →
         (o.ssl != o.client_cert_name.isSome) = true →
         main_startup E (prog :: args) = some 1))) ∧
    (parse_loop E args (defaultOptions prog) = some o →
      (o.help = true → main_startup E (prog :: args) = some 0) ∧
      (o.version = true → main_startup E (prog :: args) = some 0)) ∧
    (E.MAX_FLOODS < ds.length →
      main_startup E (prog :: "--server-addr" :: a :: floodArgs ds) =
        some 1) ∧
    (ds.length ≤ E.MAX_FLOODS →
      ∃ o2, parse_arguments E (prog :: "--server-addr" :: a :: floodArgs ds) =
          some o2 ∧
        o2.floods = ds.map (fun d => ((E.atoi d).emod 65536).toNat)) := by
  refine ⟨?_, ?_, ?_, ?_⟩
  · intro hpl hh hv
    have hpa : parse_arguments E (prog :: args) = parse_validate o := by
      simp only [parse_arguments, hpl]
    refine ⟨?_, ?_, ?_⟩
    · intro hsa
      have hval : parse_validate o = none := by
        unfold parse_validate
        rw [if_neg (by simp [hh, hv])]
        by_cases h1 : (o.ssl != o.nssdb.isSome) = true
        · rw [if_pos h1]
        · rw [if_neg h1]
          by_cases h2 : (o.ssl != o.client_cert_name.isSome) = true
          · rw [if_pos h2]
          · rw [if_neg h2, if_pos (by simp [hsa])]
      simp [main_startup, hpa, hval]
    · intro h1
      have hval : parse_validate o = none := by
        unfold parse_validate
        rw [if_neg (by simp [hh, hv]), if_pos h1]
      simp [main_startup, hpa, hval]
    · intro h1 h2
      have hval : parse_validate o = none := by
        unfold parse_validate
        rw [if_neg (by simp [hh, hv]), if_neg (by simp [h1]), if_pos h2]
      simp [main_startup, hpa, hval]
  · intro hpl
    have hpa : parse_arguments E (prog :: args) = parse_validate o := by
      simp only [parse_arguments, hpl]
    constructor
    · intro hh
      have hval : parse_validate o = some o := by
        unfold parse_validate
        rw [if_pos (by simp [hh])]
      simp [main_startup, hpa, hval, hh]
    · intro hv
      have hval : parse_validate o = some o := by
        unfold parse_validate
        rw [if_pos (by simp [hv])]
      by_cases hh : o.help = true
      · simp [main_startup, hpa, hval, hh]
      · simp [main_startup, hpa, hval, hh, hv]
  · intro hlen
    have hloop : parse_loop E ("--server-addr" :: a :: floodArgs ds)
        (defaultOptions prog) = none := by
      rw [parse_loop_server_addr]
      rw [parse_loop_floodArgs E ds _ (by simp [o_server_addr, defaultOptions])]
      rw [if_neg (by simp [o_server_addr, defaultOptions]; omega)]
    simp [main_startup, parse_arguments, hloop]
  · intro hlen
    have hloop : parse_loop E ("--server-addr" :: a :: floodArgs ds)
        (defaultOptions prog) =
        some { o_server_addr a (defaultOptions prog) with
          floods := (o_server_addr a (defaultOptions prog)).floods ++
            ds.map (fun d => ((E.atoi d).emod 65536).toNat) } := by
      rw [parse_loop_server_addr]
      rw [parse_loop_floodArgs E ds _ (by simp [o_server_addr, defaultOptions])]
      rw [if_pos (by simp [o_server_addr, defaultOptions]; omega)]
    refine ⟨{ o_server_addr a (defaultOptions prog) with
        floods := (o_server_addr a (defaultOptions prog)).floods ++
          ds.map (fun d => ((E.atoi d).emod 65536).toNat) }, ?_, ?_⟩
    · simp only [parse_arguments, hloop]
      unfold parse_validate
      rw [if_neg (by simp [o_server_addr, defaultOptions])]
      rw [if_neg (by simp [o_server_addr, defaultOptions])]
      rw [if_neg (by simp [o_server_addr, defaultOptions])]
      rw [if_neg (by simp [o_server_addr, defaultOptions])]
    · simp [o_server_addr, defaultOptions]

theorem C9_parse_validation_witness :
    main_startup E0 ["flooder", "--ssl"] = some 1 ∧
    main_startup E0 ["flooder", "--help"] = some 0 ∧
    main_startup E0
      ("flooder" :: "--server-addr" :: "a" :: floodArgs ["1", "2", "3"]) =
      some 1 ∧
    ∃ o2, parse_arguments E0
        ("flooder" :: "--server-addr" :: "a" :: floodArgs ["1", "2"]) =
        some o2 ∧
      o2.floods = ["1", "2"].map (fun d => ((E0.atoi d).emod 65536).toNat) :=
  ⟨((C9_parse_validation E0 "flooder" "a" ["--ssl"]
      (o_ssl (defaultOptions "flooder")) []).1 (by decide) rfl rfl).2.1 rfl,
   ((C9_parse_validation E0 "flooder" "a" ["--help"]
      (o_help (defaultOptions "flooder")) []).2.1 (by decide)).1 rfl,
   (C9_parse_validation E0 "flooder" "a" [] (defaultOptions "flooder")
      ["1", "2", "3"]).2.2.1 (by decide),
   (C9_parse_validation E0 "flooder" "a" [] (defaultOptions "flooder")
      ["1", "2"]).2.2.2 (by decide)⟩
